import Mathlib

/-!
Shallow embedding of the ChatKit embed-messaging SDK
(`src/mortgage-agent/frontend/chatkit.js`).

The SDK is a singleton object with mutable fields `_config`, `_parentOrigin`,
`_messageQueue`, `_commandHandlers`, `_isReady` and methods `init`, `sendData`,
`sendMessage`, `onCommand`, `resize`, `autoResize`, `close`,
`_detectParentOrigin`, `_sendToParent`, `_handleMessage`.

We model the mutable singleton as a `ChatKit` state record, every method as a
pure function from state to state plus a list of observable `Effect`s
(postMessage calls, console output, callback and handler invocations), and the
ambient browser environment (`window.parent === window`, `document.referrer`,
scroll heights) as an `Env` record fixed for the lifetime of the page.  Values
crossing the message boundary are modelled by `JsValue`; clock reads
(`Date.now()`, `new Date().toISOString()`) are supplied as arguments at the
operations that perform them.
-/

/-- JavaScript values, to the depth the SDK inspects them. -/
inductive JsValue : Type where
  | null : JsValue
  | undefined : JsValue
  | str : String → JsValue
  | num : Int → JsValue
  | bool : Bool → JsValue
  | obj : List (String × JsValue) → JsValue

/-- JavaScript truthiness (`!message` in the source negates this). -/
def jsTruthy : JsValue → Bool
  | .null => false
  | .undefined => false
  | .str s => !(s == "")
  | .num n => !(n == 0)
  | .bool b => b
  | .obj _ => true

/-- Whether `typeof v` yields the string "object" (true for null and objects). -/
def typeofIsObject : JsValue → Bool
  | .null => true
  | .obj _ => true
  | _ => false

/-- Property access `v[k]`: undefined when absent or when `v` is not an object. -/
def getProp : JsValue → String → JsValue
  | .obj fields, k =>
      match fields.find? (fun p => p.1 == k) with
      | some p => p.2
      | none => .undefined
  | _, _ => .undefined

/-- Strict equality of a value against a string literal (`v === "s"`). -/
def isStrEq (v : JsValue) (s : String) : Bool :=
  match v with
  | .str t => t == s
  | _ => false

/-- Coercion of a value used as a property key (`handlers[command]`). -/
def jsKeyString : JsValue → String
  | .str s => s
  | .num n => toString n
  | .bool b => if b then "true" else "false"
  | .null => "null"
  | .undefined => "undefined"
  | .obj _ => "[object Object]"

/-- The JavaScript `a || b` idiom, as used for defaulting (`options || \x7b\x7d`). -/
def jsOr (v fallback : JsValue) : JsValue :=
  if jsTruthy v then v else fallback

/-- Observable actions the SDK performs on the outside world. -/
inductive Effect : Type where
  | postMessage (msg : JsValue) (targetOrigin : Option String)
  | consoleWarn (text : String)
  | consoleError (text : String)
  | callOnReady
  | callOnError
  | invokeHandler (tag : Nat) (params : JsValue)
  | invokeInherited (name : String) (params : JsValue)
  | uncaughtTypeError

/-- The configuration object passed to `init`.  Callbacks are modelled by
presence flags (the model records their invocations as effects); handler
functions themselves are opaque to the SDK. -/
structure Config : Type where
  pageId : Option String
  hasOnReady : Bool
  hasOnError : Bool

/-- The `config || \x7b\x7d` defaulting in `init`. -/
def cfgOrEmpty : Option Config → Config
  | some c => c
  | none => { pageId := none, hasOnReady := false, hasOnError := false }

/-- Ambient browser environment, fixed for the lifetime of the page:
whether the page is top-level (`window.parent === window`), the
`document.referrer` string, the origin component `new URL(referrer).origin`
(meaningful when the referrer is nonempty), and the scroll heights read by
`autoResize`. -/
structure Env : Type where
  isTopLevel : Bool
  referrer : String
  referrerOrigin : String
  bodyScrollHeight : Int
  docScrollHeight : Int

/-- The mutable fields of the ChatKit singleton. -/
structure ChatKit : Type where
  config : Option Config
  parentOrigin : Option String
  messageQueue : List JsValue
  commandHandlers : List (String × Nat)
  isReady : Bool

/-- The field initializers of the ChatKit object literal. -/
def ChatKit.initial : ChatKit :=
  { config := none, parentOrigin := none, messageQueue := [],
    commandHandlers := [], isReady := false }

/-- The value of `this._config.pageId` (undefined pre-`init`). -/
def ChatKit.cfgPageId (s : ChatKit) : JsValue :=
  match s.config with
  | some c =>
      match c.pageId with
      | some p => .str p
      | none => .undefined
  | none => .undefined

/-- Whether `this._config.onReady` is set. -/
def ChatKit.cfgHasOnReady (s : ChatKit) : Bool :=
  match s.config with
  | some c => c.hasOnReady
  | none => false

/-- Whether `this._config.onError` is set. -/
def ChatKit.cfgHasOnError (s : ChatKit) : Bool :=
  match s.config with
  | some c => c.hasOnError
  | none => false

/-- The callable data and method properties every plain object inherits from
`Object.prototype` (and, for constructor, from it via `Object`).  Looking any
of these up on the plain-object registry yields a truthy function value even
though nothing was registered. -/
def objectPrototypeFnProps : List String :=
  ["constructor", "hasOwnProperty", "isPrototypeOf", "propertyIsEnumerable",
   "toLocaleString", "toString", "valueOf",
   "__defineGetter__", "__defineSetter__", "__lookupGetter__",
   "__lookupSetter__"]

/-- Result of the registry lookup `this._commandHandlers[command]` on the
plain `Object` registry: a registered own entry; a callable value inherited
from `Object.prototype` (truthy, so the dispatcher invokes it); the
non-callable object produced by the inherited `__proto__` accessor (truthy,
so the dispatcher attempts the call and the call expression throws); or
undefined. -/
inductive HandlerLookup : Type where
  | registered (tag : Nat)
  | inheritedFn (name : String)
  | inheritedProto
  | absent

/-- Handler-registry lookup `this._commandHandlers[command]`.  Own entries
are an assoc list where registration prepends, so the first match is the most
recent assignment, matching JavaScript object-key overwrite semantics; when no
own entry matches, the lookup continues along the prototype chain of the
plain-object registry, where every `Object.prototype` property is found. -/
def lookupHandler (hs : List (String × Nat)) (k : String) : HandlerLookup :=
  match hs.find? (fun p => p.1 == k) with
  | some p => .registered p.2
  | none =>
      if objectPrototypeFnProps.contains k then .inheritedFn k
      else if k == "__proto__" then .inheritedProto
      else .absent

/-- The `embed_ready` object literal built in `init`. -/
def mkEmbedReady (pageId now : String) : JsValue :=
  .obj [("type", .str "embed_ready"), ("pageId", .str pageId),
        ("timestamp", .str now)]

/-- The `embed_data` object literal built in `sendData`. -/
def mkEmbedData (pageId data options : JsValue) (now : String) : JsValue :=
  .obj [("type", .str "embed_data"), ("pageId", pageId), ("data", data),
        ("options", options), ("timestamp", .str now)]

/-- The `embed_resize` object literal built in `resize` (note: no timestamp
field appears in the source literal). -/
def mkEmbedResize (pageId : JsValue) (height : Int) : JsValue :=
  .obj [("type", .str "embed_resize"), ("pageId", pageId),
        ("height", .num height)]

/-- The `embed_close` object literal built in `close` (note: no timestamp
field appears in the source literal). -/
def mkEmbedClose (pageId : JsValue) : JsValue :=
  .obj [("type", .str "embed_close"), ("pageId", pageId)]

/-- The method `_sendToParent(message)`.  `postThrows` models whether the
`window.parent.postMessage` call throws; the try/catch in the source recovers
from the throw, logs, and invokes `onError` when configured, so the model is a
total function either way.  No field of the singleton is assigned. -/
def ChatKit.sendToParent (s : ChatKit) (env : Env) (postThrows : Bool)
    (message : JsValue) : ChatKit × List Effect :=
  if env.isTopLevel then (s, [])
  else if postThrows then
    (s, Effect.consoleError "[ChatKit] Failed to send message:" ::
        (if s.cfgHasOnError then [Effect.callOnError] else []))
  else
    (s, [Effect.postMessage message s.parentOrigin])

/-- The method `_detectParentOrigin()`: warn and leave `_parentOrigin` null
when top-level, else set it from the origin of the referrer with the wildcard
fallback. -/
def ChatKit.detectParentOrigin (s : ChatKit) (env : Env) :
    ChatKit × List Effect :=
  if env.isTopLevel then
    (s, [Effect.consoleWarn "[ChatKit] Not running in iframe"])
  else
    let origin := if env.referrer == "" then "*" else env.referrerOrigin
    ({ s with parentOrigin := some origin }, [])

/-- The default `this._config.pageId` with fallback to a generated id built
from the prefix embed- and `Date.now()`. -/
def resolvePageId (configured : Option String) (nowMs : Nat) : String :=
  match configured with
  | some p => if p == "" then "embed-" ++ toString nowMs else p
  | none => "embed-" ++ toString nowMs

/-- The method `init(config)`: store the config with a defaulted pageId,
detect the parent origin, attach the message listener (implicit in the model:
inbound events are delivered to `handleMessage`), and send the `embed_ready`
signal through `_sendToParent`.  `nowMs` is `Date.now()` and `now` is
`new Date().toISOString()` at the call. -/
def ChatKit.init (s : ChatKit) (env : Env) (cfg : Option Config)
    (nowMs : Nat) (now : String) : ChatKit × List Effect :=
  let c := cfgOrEmpty cfg
  let pid := resolvePageId c.pageId nowMs
  let s1 : ChatKit := { s with config := some { c with pageId := some pid } }
  let r1 := s1.detectParentOrigin env
  let r2 := r1.1.sendToParent env false (mkEmbedReady pid now)
  (r2.1, r1.2 ++ r2.2)

/-- The method `sendData(data, options)`: build the `embed_data` message and
either send it (when `_isReady`) or push it onto `_messageQueue`. -/
def ChatKit.sendData (s : ChatKit) (env : Env) (data options : JsValue)
    (now : String) : ChatKit × List Effect :=
  let message := mkEmbedData s.cfgPageId data (jsOr options (.obj [])) now
  if s.isReady then s.sendToParent env false message
  else ({ s with messageQueue := s.messageQueue ++ [message] },
        ([] : List Effect))

/-- The method `sendMessage(text, type)`: delegates to `sendData` with a
message-typed payload; `options` is not passed, hence undefined. -/
def ChatKit.sendMessage (s : ChatKit) (env : Env) (text : String)
    (kind : JsValue) (now : String) : ChatKit × List Effect :=
  s.sendData env
    (.obj [("type", .str "message"), ("messageType", jsOr kind (.str "info")),
           ("content", .str text)])
    .undefined now

/-- The method `onCommand(command, handler)`: assign into the handler registry
(overwriting any previous handler for the name).  Handler functions are
identified by an opaque tag. -/
def ChatKit.onCommand (s : ChatKit) (command : String) (tag : Nat) : ChatKit :=
  { s with commandHandlers := (command, tag) :: s.commandHandlers }

/-- The method `resize(height)`: send `embed_resize` directly. -/
def ChatKit.resize (s : ChatKit) (env : Env) (height : Int) :
    ChatKit × List Effect :=
  s.sendToParent env false (mkEmbedResize s.cfgPageId height)

/-- The method `autoResize()`: resize to the max of the two scroll heights. -/
def ChatKit.autoResize (s : ChatKit) (env : Env) : ChatKit × List Effect :=
  s.resize env (max env.bodyScrollHeight env.docScrollHeight)

/-- The method `close()`: send `embed_close` directly. -/
def ChatKit.close (s : ChatKit) (env : Env) : ChatKit × List Effect :=
  s.sendToParent env false (mkEmbedClose s.cfgPageId)

/-- A delivered `message` event: the dispatcher receives the full event but
the source reads only `event.data`. -/
structure MessageEvent : Type where
  origin : String
  data : JsValue

/-- Effects of the `while (this._messageQueue.length > 0)` flush loop: shift
the front message and `_sendToParent` it, repeatedly.  `_sendToParent` assigns
no field, so the state threaded through the loop body is constant and the loop
is recursion on the queue contents. -/
def ChatKit.flushEffects (s : ChatKit) (env : Env) :
    List JsValue → List Effect
  | [] => []
  | m :: rest => (s.sendToParent env false m).2 ++ s.flushEffects env rest

/-- The method `_handleMessage(event)`: validate `event.data` (truthy and
typeof object), then the `parent_ready` branch (set `_isReady`, flush the
queue, call `onReady` if configured) and the `parent_command` branch, in
sequence as in the source (two independent `if`s, not `else if`).  In the
command branch the source tests the looked-up value for truthiness and calls
it, else warns: a registered handler is invoked with `message.params`; a
truthy callable inherited from `Object.prototype` is likewise invoked (the
callee may itself misbehave under an undefined receiver, but that is outside
the dispatcher); the truthy non-callable value the `__proto__` accessor
yields makes the call expression itself throw a TypeError which, with no
try/catch in `_handleMessage` and no statement after the call, escapes the
listener - modelled as the terminal `uncaughtTypeError` effect. -/
def ChatKit.handleMessage (s : ChatKit) (env : Env) (event : MessageEvent) :
    ChatKit × List Effect :=
  let message := event.data
  if !(jsTruthy message && typeofIsObject message) then (s, [])
  else
    let r1 :=
      if isStrEq (getProp message "type") "parent_ready" then
        let sR : ChatKit := { s with isReady := true }
        let eFlush := sR.flushEffects env sR.messageQueue
        ({ sR with messageQueue := [] },
         eFlush ++ (if sR.cfgHasOnReady then [Effect.callOnReady] else []))
      else (s, ([] : List Effect))
    let r2 :=
      if isStrEq (getProp message "type") "parent_command" then
        match lookupHandler r1.1.commandHandlers
            (jsKeyString (getProp message "command")) with
        | .registered tag =>
            (r1.1, [Effect.invokeHandler tag (getProp message "params")])
        | .inheritedFn name =>
            (r1.1, [Effect.invokeInherited name (getProp message "params")])
        | .inheritedProto =>
            (r1.1, [Effect.uncaughtTypeError])
        | .absent =>
            (r1.1, [Effect.consoleWarn "[ChatKit] No handler for command:"])
      else (r1.1, ([] : List Effect))
    (r2.1, r1.2 ++ r2.2)

/-- One externally triggered operation on the session: an API call from the
application code of the embedded page, or delivery of a message event. -/
inductive Op : Type where
  | opInit (cfg : Option Config) (nowMs : Nat) (now : String)
  | opSendData (data options : JsValue) (now : String)
  | opSendMessage (text : String) (kind : JsValue) (now : String)
  | opOnCommand (command : String) (tag : Nat)
  | opResize (height : Int)
  | opAutoResize
  | opClose
  | opReceive (event : MessageEvent)

/-- Single step of the session under one operation. -/
def ChatKit.step (s : ChatKit) (env : Env) : Op → ChatKit × List Effect
  | .opInit cfg nowMs now => s.init env cfg nowMs now
  | .opSendData d o now => s.sendData env d o now
  | .opSendMessage t k now => s.sendMessage env t k now
  | .opOnCommand c tag => (s.onCommand c tag, [])
  | .opResize h => s.resize env h
  | .opAutoResize => s.autoResize env
  | .opClose => s.close env
  | .opReceive ev => s.handleMessage env ev

/-- Run a sequence of operations, collecting effects in order. -/
def ChatKit.run (s : ChatKit) (env : Env) : List Op → ChatKit × List Effect
  | [] => (s, [])
  | op :: ops =>
      let r1 := s.step env op
      let r2 := r1.1.run env ops
      (r2.1, r1.2 ++ r2.2)

/-! Concrete fixtures used by counterexamples and witnesses: an embedded-page
environment with a referrer, and session states before and after the ready
transition. -/

/-- An embedded page whose referrer resolves to the host origin. -/
def env0 : Env :=
  { isTopLevel := false, referrer := "https://host.example/page",
    referrerOrigin := "https://host.example",
    bodyScrollHeight := 600, docScrollHeight := 800 }

/-- A session as produced by `init` with both callbacks configured, still
awaiting the handshake. -/
def sPre : ChatKit :=
  { config := some { pageId := some "p1", hasOnReady := true, hasOnError := true },
    parentOrigin := some "https://host.example", messageQueue := [],
    commandHandlers := [], isReady := false }

/-- The same session after the ready transition. -/
def sReady : ChatKit := { sPre with isReady := true }

/-- An init configuration with an `onReady` callback. -/
def cfgReady : Config :=
  { pageId := some "p1", hasOnReady := true, hasOnError := false }

/-- A well-formed `parent_ready` event from the host. -/
def evReady : MessageEvent :=
  { origin := "https://host.example", data := .obj [("type", .str "parent_ready")] }

/-- The `embed_data` message `sendData` builds from state `s` for payload,
options and timestamp `i`. -/
def embedDataOf (s : ChatKit) (i : JsValue × JsValue × String) : JsValue :=
  mkEmbedData s.cfgPageId i.1 (jsOr i.2.1 (JsValue.obj [])) i.2.2

/-- Two concrete pre-handshake `sendData` payloads. -/
def itemsW : List (JsValue × JsValue × String) :=
  [(JsValue.str "a", JsValue.undefined, "t1"), (JsValue.str "b", JsValue.undefined, "t2")]

/-! Helper lemmas shared by the claim theorems. -/

/-- The send primitive `_sendToParent` assigns no field of the singleton,
whether the page is top-level, the post throws, or the post succeeds. -/
theorem sendToParent_fst (s : ChatKit) (env : Env) (b : Bool) (m : JsValue) :
    (s.sendToParent env b m).1 = s := by
  simp only [ChatKit.sendToParent]
  split
  · rfl
  · split <;> rfl

/-- In an embedded page with a working channel, the send primitive emits
exactly one postMessage addressed to the resolved origin. -/
theorem sendToParent_snd (s : ChatKit) (env : Env) (m : JsValue)
    (hE : env.isTopLevel = false) :
    (s.sendToParent env false m).2 = [Effect.postMessage m s.parentOrigin] := by
  simp [ChatKit.sendToParent, hE]

/-- Flushing a queue in an embedded page posts each queued message in order. -/
theorem flushEffects_eq_map (s : ChatKit) (env : Env)
    (hE : env.isTopLevel = false) :
    ∀ q : List JsValue,
      s.flushEffects env q = q.map fun m => Effect.postMessage m s.parentOrigin
  | [] => rfl
  | m :: rest => by
      simp [ChatKit.flushEffects, sendToParent_snd s env m hE,
            flushEffects_eq_map s env hE rest]

/-- Receiving a well-formed `parent_ready` sets the ready flag, empties the
queue, posts every queued message in FIFO order, then calls `onReady` when
configured. -/
theorem handleMessage_parent_ready (s : ChatKit) (env : Env) (o : String)
    (hE : env.isTopLevel = false) :
    s.handleMessage env
        { origin := o, data := .obj [("type", .str "parent_ready")] } =
      ({ s with isReady := true, messageQueue := [] },
       (s.messageQueue.map fun m => Effect.postMessage m s.parentOrigin) ++
         (if s.cfgHasOnReady then [Effect.callOnReady] else [])) := by
  simp [ChatKit.handleMessage, getProp, isStrEq, jsTruthy, typeofIsObject,
        ChatKit.cfgHasOnReady, flushEffects_eq_map _ _ hE]

/-- A pre-handshake `sendData` call appends exactly one `embed_data` message
to the queue and emits nothing. -/
theorem sendData_not_ready (s : ChatKit) (env : Env) (d o : JsValue)
    (now : String) (hR : s.isReady = false) :
    s.sendData env d o now =
      ({ s with messageQueue :=
          s.messageQueue ++
            [mkEmbedData s.cfgPageId d (jsOr o (JsValue.obj [])) now] },
       []) := by
  simp [ChatKit.sendData, hR]

/-- A post-handshake `sendData` call bypasses the queue and posts at once. -/
theorem sendData_ready (s : ChatKit) (env : Env) (d o : JsValue) (now : String)
    (hR : s.isReady = true) (hE : env.isTopLevel = false) :
    s.sendData env d o now =
      (s, [Effect.postMessage
            (mkEmbedData s.cfgPageId d (jsOr o (JsValue.obj [])) now)
            s.parentOrigin]) := by
  simp [ChatKit.sendData, ChatKit.sendToParent, hR, hE]

/-- A pre-handshake sequence of `sendData` calls appends one message per call,
in call order, and emits nothing. -/
theorem run_sendData_pre_ready (env : Env) :
    ∀ (items : List (JsValue × JsValue × String)) (s : ChatKit),
      s.isReady = false →
      s.run env (items.map fun i => Op.opSendData i.1 i.2.1 i.2.2) =
        ({ s with messageQueue := s.messageQueue ++ items.map (embedDataOf s) },
         [])
  | [], s, _hR => by simp [ChatKit.run]
  | i :: rest, s, hR => by
      have h2 := run_sendData_pre_ready env rest
        { s with messageQueue := s.messageQueue ++ [embedDataOf s i] } hR
      simp only [List.map_cons, ChatKit.run, ChatKit.step,
        sendData_not_ready s env i.1 i.2.1 i.2.2 hR]
      rw [show mkEmbedData s.cfgPageId i.1 (jsOr i.2.1 (JsValue.obj [])) i.2.2
            = embedDataOf s i from rfl]
      rw [h2]
      simp [embedDataOf, ChatKit.cfgPageId]

/-- The inbound dispatcher never turns the ready flag off. -/
theorem handleMessage_isReady_mono (s : ChatKit) (env : Env) (ev : MessageEvent)
    (h : s.isReady = true) : (s.handleMessage env ev).1.isReady = true := by
  cases hv : (!(jsTruthy ev.data && typeofIsObject ev.data)) with
  | true => simp [ChatKit.handleMessage, hv, h]
  | false =>
      cases hr : isStrEq (getProp ev.data "type") "parent_ready" <;>
      cases hc : isStrEq (getProp ev.data "type") "parent_command" <;>
        simp [ChatKit.handleMessage, hv, hr, hc, h] <;>
        cases hl : lookupHandler s.commandHandlers
            (jsKeyString (getProp ev.data "command")) <;>
          simp [hl, h]

/-- No single operation turns the ready flag off. -/
theorem step_isReady_mono (s : ChatKit) (env : Env) (op : Op)
    (h : s.isReady = true) : (s.step env op).1.isReady = true := by
  cases op with
  | opInit cfg nowMs now =>
      cases hE : env.isTopLevel <;>
        simp [ChatKit.step, ChatKit.init, ChatKit.detectParentOrigin,
              ChatKit.sendToParent, hE, h]
  | opSendData d o now =>
      simp [ChatKit.step, ChatKit.sendData, h, sendToParent_fst]
  | opSendMessage t k now =>
      simp [ChatKit.step, ChatKit.sendMessage, ChatKit.sendData, h,
            sendToParent_fst]
  | opOnCommand c tag => simp [ChatKit.step, ChatKit.onCommand, h]
  | opResize hh => simp [ChatKit.step, ChatKit.resize, sendToParent_fst, h]
  | opAutoResize =>
      simp [ChatKit.step, ChatKit.autoResize, ChatKit.resize, sendToParent_fst, h]
  | opClose => simp [ChatKit.step, ChatKit.close, sendToParent_fst, h]
  | opReceive ev => exact handleMessage_isReady_mono s env ev h

/-- No sequence of operations turns the ready flag off. -/
theorem run_isReady_mono (env : Env) :
    ∀ (ops : List Op) (s : ChatKit), s.isReady = true →
      (s.run env ops).1.isReady = true
  | [], _, h => h
  | op :: ops, s, h => by
      simp only [ChatKit.run]
      exact run_isReady_mono env ops _ (step_isReady_mono s env op h)

/-- Every operation preserves the invariant that a ready session has an empty
queue. -/
theorem step_ready_queue_inv (s : ChatKit) (env : Env) (op : Op)
    (h : s.isReady = true → s.messageQueue = []) :
    (s.step env op).1.isReady = true → (s.step env op).1.messageQueue = [] := by
  cases op with
  | opInit cfg nowMs now =>
      cases hE : env.isTopLevel <;>
        simp [ChatKit.step, ChatKit.init, ChatKit.detectParentOrigin,
              ChatKit.sendToParent, hE] <;> exact h
  | opSendData d o now =>
      cases hr : s.isReady with
      | true =>
          simp [ChatKit.step, ChatKit.sendData, hr, sendToParent_fst]
          exact h hr
      | false => simp [ChatKit.step, ChatKit.sendData, hr]
  | opSendMessage t k now =>
      cases hr : s.isReady with
      | true =>
          simp [ChatKit.step, ChatKit.sendMessage, ChatKit.sendData, hr,
                sendToParent_fst]
          exact h hr
      | false => simp [ChatKit.step, ChatKit.sendMessage, ChatKit.sendData, hr]
  | opOnCommand c tag =>
      simp [ChatKit.step, ChatKit.onCommand]
      exact h
  | opResize hh =>
      simp [ChatKit.step, ChatKit.resize, sendToParent_fst]
      exact h
  | opAutoResize =>
      simp [ChatKit.step, ChatKit.autoResize, ChatKit.resize, sendToParent_fst]
      exact h
  | opClose =>
      simp [ChatKit.step, ChatKit.close, sendToParent_fst]
      exact h
  | opReceive ev =>
      cases hv : (!(jsTruthy ev.data && typeofIsObject ev.data)) with
      | true =>
          simp [ChatKit.step, ChatKit.handleMessage, hv]
          exact h
      | false =>
          cases hr : isStrEq (getProp ev.data "type") "parent_ready" <;>
          cases hc : isStrEq (getProp ev.data "type") "parent_command" <;>
            simp [ChatKit.step, ChatKit.handleMessage, hv, hr, hc] <;>
            first
            | exact h
            | (cases hl : lookupHandler s.commandHandlers
                  (jsKeyString (getProp ev.data "command")) <;> simp [hl] <;>
                 exact h)

/-- Every run preserves the invariant that a ready session has an empty
queue. -/
theorem run_ready_queue_inv (env : Env) :
    ∀ (ops : List Op) (s : ChatKit),
      (s.isReady = true → s.messageQueue = []) →
      ((s.run env ops).1.isReady = true → (s.run env ops).1.messageQueue = [])
  | [], _, h => h
  | op :: ops, s, h => by
      simp only [ChatKit.run]
      exact run_ready_queue_inv env ops _ (step_ready_queue_inv s env op h)

/-! Claim theorems. -/

/-- C1 (counterexample): at a concrete embedded-page `init` with no config,
the `embed_ready` notification is NOT appended to the pending queue (the queue
is empty afterwards) and IS transmitted immediately as a postMessage, refuting
the claim that it queues because `ready` is false. -/
theorem c1_embed_ready_not_queued_cex :
    (ChatKit.initial.init env0 none 5 "2026-01-01T00:00:00.000Z").1.messageQueue
        = [] ∧
    (ChatKit.initial.init env0 none 5 "2026-01-01T00:00:00.000Z").2 =
      [Effect.postMessage (mkEmbedReady "embed-5" "2026-01-01T00:00:00.000Z")
        (some "https://host.example")] :=
  ⟨rfl, rfl⟩

/-- C1 (amended): when `init` runs in an embedded page, the `embed_ready`
notification is transmitted immediately through `_sendToParent` (one
postMessage to the resolved origin), and the pending queue is not touched;
`init` never queues. -/
theorem c1_embed_ready_sent_immediately (s : ChatKit) (env : Env)
    (cfg : Option Config) (nowMs : Nat) (now : String)
    (hE : env.isTopLevel = false) :
    (s.init env cfg nowMs now).1.messageQueue = s.messageQueue ∧
    (s.init env cfg nowMs now).2 =
      [Effect.postMessage
        (mkEmbedReady (resolvePageId (cfgOrEmpty cfg).pageId nowMs) now)
        (some (if env.referrer == "" then "*" else env.referrerOrigin))] := by
  constructor <;>
    simp [ChatKit.init, ChatKit.detectParentOrigin, ChatKit.sendToParent, hE]

/-- C1 (witness): the amended theorem applied at a concrete input. -/
theorem c1_witness :
    (ChatKit.initial.init env0 none 5 "T").1.messageQueue =
      ChatKit.initial.messageQueue ∧
    (ChatKit.initial.init env0 none 5 "T").2 =
      [Effect.postMessage
        (mkEmbedReady (resolvePageId (cfgOrEmpty none).pageId 5) "T")
        (some (if env0.referrer == "" then "*" else env0.referrerOrigin))] :=
  c1_embed_ready_sent_immediately ChatKit.initial env0 none 5 "T" rfl

/-- C2 (counterexample): in a concrete session that is already Active (after
`init` and one `parent_ready`), delivering a second well-formed `parent_ready`
invokes `onReady` again, refuting the claim that it is a complete no-op. -/
theorem c2_second_parent_ready_cex :
    (((ChatKit.initial.init env0 (some cfgReady) 0 "T").1.handleMessage env0
        evReady).1.handleMessage env0 evReady).2 = [Effect.callOnReady] ∧
    ((ChatKit.initial.init env0 (some cfgReady) 0 "T").1.handleMessage env0
        evReady).1.isReady = true :=
  ⟨rfl, rfl⟩

/-- C2 (amended): receiving a further well-formed `parent_ready` while Active
leaves the session state unchanged and re-sends nothing from the queue (which
is empty - an invariant of every reachable session, stated as the second
conjunct), but `onReady` IS invoked again whenever it is configured. -/
theorem c2_repeat_parent_ready (s : ChatKit) (env : Env) (o : String)
    (hR : s.isReady = true) (hQ : s.messageQueue = []) :
    (s.handleMessage env
        { origin := o, data := .obj [("type", .str "parent_ready")] } =
      (s, if s.cfgHasOnReady then [Effect.callOnReady] else [])) ∧
    (∀ ops : List Op,
       (ChatKit.initial.run env ops).1.isReady = true →
       (ChatKit.initial.run env ops).1.messageQueue = []) := by
  constructor
  · cases s with
    | mk config parentOrigin messageQueue commandHandlers isReady =>
        simp only at hR hQ
        subst hR hQ
        simp [ChatKit.handleMessage, getProp, isStrEq, jsTruthy, typeofIsObject,
              ChatKit.flushEffects, ChatKit.cfgHasOnReady]
  · intro ops
    exact run_ready_queue_inv env ops ChatKit.initial (fun hinit => rfl)

/-- C2 (witness): the amended theorem applied at a concrete Active session and
a concrete reachable trace. -/
theorem c2_witness :
    (sReady.handleMessage env0
        { origin := "o", data := .obj [("type", .str "parent_ready")] } =
      (sReady, if sReady.cfgHasOnReady then [Effect.callOnReady] else [])) ∧
    (ChatKit.initial.run env0
        [Op.opInit (some cfgReady) 0 "T", Op.opReceive evReady]).1.messageQueue
      = [] :=
  ⟨(c2_repeat_parent_ready sReady env0 "o" rfl rfl).1,
   (c2_repeat_parent_ready sReady env0 "o" rfl rfl).2
     [Op.opInit (some cfgReady) 0 "T", Op.opReceive evReady] rfl⟩

/-- C3 (confirmed): every pre-handshake `sendData` call appends exactly one
`embed_data` message to the pending queue (one per item, in call order,
nothing sent); the first `parent_ready` drains the whole queue in FIFO order
(delivery order equals issue order) leaving it empty; and a `sendData` after
the ready transition bypasses the queue and posts immediately. -/
theorem c3_fifo_drain (env : Env) (s0 : ChatKit) (o : String)
    (items : List (JsValue × JsValue × String))
    (hE : env.isTopLevel = false) (hR : s0.isReady = false)
    (hQ : s0.messageQueue = []) :
    s0.run env (items.map fun i => Op.opSendData i.1 i.2.1 i.2.2) =
      ({ s0 with messageQueue := items.map (embedDataOf s0) }, []) ∧
    ({ s0 with messageQueue := items.map (embedDataOf s0) } : ChatKit).handleMessage
        env { origin := o, data := .obj [("type", .str "parent_ready")] } =
      ({ s0 with isReady := true, messageQueue := [] },
       (items.map (embedDataOf s0)).map
           (fun m => Effect.postMessage m s0.parentOrigin) ++
         (if s0.cfgHasOnReady then [Effect.callOnReady] else [])) ∧
    (∀ (s : ChatKit) (d o2 : JsValue) (now : String), s.isReady = true →
       s.sendData env d o2 now =
         (s, [Effect.postMessage
               (mkEmbedData s.cfgPageId d (jsOr o2 (JsValue.obj [])) now)
               s.parentOrigin])) := by
  refine ⟨?_, ?_, fun s d o2 now hRdy => sendData_ready s env d o2 now hRdy hE⟩
  · rw [run_sendData_pre_ready env items s0 hR, hQ]
    simp
  · have h := handleMessage_parent_ready
      { s0 with messageQueue := items.map (embedDataOf s0) } env o hE
    simpa using h

/-- C3 (witness): the theorem applied at a concrete two-element send sequence
and a concrete post-ready send. -/
theorem c3_witness :
    sPre.run env0 (itemsW.map fun i => Op.opSendData i.1 i.2.1 i.2.2) =
      ({ sPre with messageQueue := itemsW.map (embedDataOf sPre) }, []) ∧
    ({ sPre with messageQueue := itemsW.map (embedDataOf sPre) } : ChatKit).handleMessage
        env0 { origin := "org", data := .obj [("type", .str "parent_ready")] } =
      ({ sPre with isReady := true, messageQueue := [] },
       (itemsW.map (embedDataOf sPre)).map
           (fun m => Effect.postMessage m sPre.parentOrigin) ++
         (if sPre.cfgHasOnReady then [Effect.callOnReady] else [])) ∧
    sReady.sendData env0 (JsValue.str "c") JsValue.undefined "t3" =
      (sReady, [Effect.postMessage
            (mkEmbedData sReady.cfgPageId (JsValue.str "c")
              (jsOr JsValue.undefined (JsValue.obj [])) "t3")
            sReady.parentOrigin]) :=
  ⟨(c3_fifo_drain env0 sPre "org" itemsW rfl rfl rfl).1,
   (c3_fifo_drain env0 sPre "org" itemsW rfl rfl rfl).2.1,
   (c3_fifo_drain env0 sPre "org" itemsW rfl rfl rfl).2.2
     sReady (JsValue.str "c") JsValue.undefined "t3" rfl⟩

/-- C4 (counterexample): at a concrete embedded session, `resize` and `close`
post messages that carry NO timestamp field (property lookup yields
undefined), refuting the claim that every outbound message type carries an
ISO-8601 timestamp. -/
theorem c4_resize_close_no_timestamp_cex :
    (sPre.resize env0 300).2 =
      [Effect.postMessage (mkEmbedResize (JsValue.str "p1") 300)
        (some "https://host.example")] ∧
    getProp (mkEmbedResize (JsValue.str "p1") 300) "timestamp" = JsValue.undefined ∧
    (sPre.close env0).2 =
      [Effect.postMessage (mkEmbedClose (JsValue.str "p1"))
        (some "https://host.example")] ∧
    getProp (mkEmbedClose (JsValue.str "p1")) "timestamp" = JsValue.undefined :=
  ⟨rfl, rfl, rfl, rfl⟩

/-- C4 (amended): every outbound message carries a pageId; `embed_ready` and
`embed_data` additionally carry the timestamp generated when the message is
constructed, while `embed_resize` and `embed_close` carry no timestamp
field. -/
theorem c4_outbound_fields (pid now : String) (pidv data opts : JsValue)
    (h : Int) :
    getProp (mkEmbedReady pid now) "pageId" = JsValue.str pid ∧
    getProp (mkEmbedReady pid now) "timestamp" = JsValue.str now ∧
    getProp (mkEmbedData pidv data opts now) "pageId" = pidv ∧
    getProp (mkEmbedData pidv data opts now) "timestamp" = JsValue.str now ∧
    getProp (mkEmbedResize pidv h) "pageId" = pidv ∧
    getProp (mkEmbedResize pidv h) "timestamp" = JsValue.undefined ∧
    getProp (mkEmbedClose pidv) "pageId" = pidv ∧
    getProp (mkEmbedClose pidv) "timestamp" = JsValue.undefined :=
  ⟨rfl, rfl, rfl, rfl, rfl, rfl, rfl, rfl⟩

/-- C5 (confirmed): in an embedded page before the ready transition, `resize`
and `close` deliver their messages immediately through the channel and leave
the whole session state - in particular the pending queue and its length -
unchanged. -/
theorem c5_resize_close_bypass_queue (s : ChatKit) (env : Env) (h : Int)
    (hE : env.isTopLevel = false) (_hR : s.isReady = false) :
    s.resize env h =
      (s, [Effect.postMessage (mkEmbedResize s.cfgPageId h) s.parentOrigin]) ∧
    s.close env =
      (s, [Effect.postMessage (mkEmbedClose s.cfgPageId) s.parentOrigin]) := by
  constructor <;> simp [ChatKit.resize, ChatKit.close, ChatKit.sendToParent, hE]

/-- C5 (witness): the theorem applied at a concrete pre-handshake session. -/
theorem c5_witness :
    sPre.resize env0 300 =
      (sPre, [Effect.postMessage (mkEmbedResize sPre.cfgPageId 300)
        sPre.parentOrigin]) ∧
    sPre.close env0 =
      (sPre, [Effect.postMessage (mkEmbedClose sPre.cfgPageId)
        sPre.parentOrigin]) :=
  c5_resize_close_bypass_queue sPre env0 300 rfl rfl

/-- C6 (confirmed): when the postMessage delivery throws, `_sendToParent`
catches the failure (the model stays a total function - nothing propagates to
the caller), leaves the whole session state unchanged, logs the error, and
invokes `onError` exactly when one is configured. -/
theorem c6_send_failure_recovered (s : ChatKit) (env : Env) (m : JsValue)
    (hE : env.isTopLevel = false) :
    (s.sendToParent env true m).1 = s ∧
    (s.sendToParent env true m).2 =
      Effect.consoleError "[ChatKit] Failed to send message:" ::
        (if s.cfgHasOnError then [Effect.callOnError] else []) := by
  constructor <;> simp [ChatKit.sendToParent, hE]

/-- C6 (witness): the theorem applied at a concrete failing send. -/
theorem c6_witness :
    (sPre.sendToParent env0 true (JsValue.str "m")).1 = sPre ∧
    (sPre.sendToParent env0 true (JsValue.str "m")).2 =
      Effect.consoleError "[ChatKit] Failed to send message:" ::
        (if sPre.cfgHasOnError then [Effect.callOnError] else []) :=
  c6_send_failure_recovered sPre env0 (JsValue.str "m") rfl

/-- C7 (confirmed): an inbound message that is falsy, not object-shaped, or an
object whose type is neither parent_ready nor parent_command leaves the
session state unchanged and produces no effect at all - no handler, no
callback, no console output. -/
theorem c7_malformed_ignored (s : ChatKit) (env : Env) (ev : MessageEvent)
    (h : jsTruthy ev.data = false ∨ typeofIsObject ev.data = false ∨
         (isStrEq (getProp ev.data "type") "parent_ready" = false ∧
          isStrEq (getProp ev.data "type") "parent_command" = false)) :
    s.handleMessage env ev = (s, []) := by
  rcases h with h | h | ⟨h1, h2⟩
  · simp [ChatKit.handleMessage, h]
  · simp [ChatKit.handleMessage, h]
  · cases hv : (!(jsTruthy ev.data && typeofIsObject ev.data)) <;>
      simp [ChatKit.handleMessage, hv, h1, h2]

/-- C7 (witness): the theorem applied to a concrete string-valued event. -/
theorem c7_witness :
    sPre.handleMessage env0 { origin := "evil", data := JsValue.str "hello" } =
      (sPre, []) :=
  c7_malformed_ignored sPre env0 _ (Or.inr (Or.inl rfl))

/-- C8 (code bug): the registry is a plain object, so the lookup
`this._commandHandlers[command]` consults the `Object.prototype` chain.  At
the concrete unregistered command toString the dispatcher finds the inherited
builtin (truthy), invokes it and logs NO warning; at the unregistered command
`__proto__` the looked-up value is the truthy non-callable prototype object,
so `handler(message.params)` itself throws an uncaught TypeError.  Both
contradict the claim - and the stated spec intent that an unregistered
command warns, invokes nothing and never crashes - which the code meets only
for genuinely absent names such as reset (third conjunct). -/
theorem c8_prototype_chain_bug :
    sPre.handleMessage env0
      { origin := "o",
        data := .obj [("type", .str "parent_command"),
                      ("command", .str "toString"),
                      ("params", JsValue.obj [])] } =
      (sPre, [Effect.invokeInherited "toString" (JsValue.obj [])]) ∧
    sPre.handleMessage env0
      { origin := "o",
        data := .obj [("type", .str "parent_command"),
                      ("command", .str "__proto__"),
                      ("params", JsValue.obj [])] } =
      (sPre, [Effect.uncaughtTypeError]) ∧
    sPre.handleMessage env0
      { origin := "o",
        data := .obj [("type", .str "parent_command"),
                      ("command", .str "reset"),
                      ("params", JsValue.obj [])] } =
      (sPre, [Effect.consoleWarn "[ChatKit] No handler for command:"]) :=
  ⟨rfl, rfl, rfl⟩

/-- C9 (confirmed): the ready flag starts false and no step and no run of
operations ever turns it back off once true; and after two registrations for
the same command name, a `parent_command` with that name invokes only the
second handler. -/
theorem c9_ready_monotone_last_handler_wins :
    ChatKit.initial.isReady = false ∧
    (∀ (s : ChatKit) (env : Env) (op : Op), s.isReady = true →
       (s.step env op).1.isReady = true) ∧
    (∀ (s : ChatKit) (env : Env) (ops : List Op), s.isReady = true →
       (s.run env ops).1.isReady = true) ∧
    (∀ (s : ChatKit) (env : Env) (c : String) (t1 t2 : Nat) (o : String)
        (params : JsValue),
       ((s.onCommand c t1).onCommand c t2).handleMessage env
           { origin := o,
             data := .obj [("type", .str "parent_command"),
                           ("command", .str c), ("params", params)] } =
         ((s.onCommand c t1).onCommand c t2,
          [Effect.invokeHandler t2 params])) := by
  refine ⟨rfl, fun s env op h => step_isReady_mono s env op h,
          fun s env ops h => run_isReady_mono env ops s h,
          fun s env c t1 t2 o params => ?_⟩
  simp [ChatKit.handleMessage, ChatKit.onCommand, getProp, isStrEq, jsTruthy,
        typeofIsObject, jsKeyString, lookupHandler, List.find?]

/-- C9 (witness): the theorem applied at a concrete ready session, a concrete
operation list, and a concrete double registration. -/
theorem c9_witness :
    (sReady.step env0 Op.opClose).1.isReady = true ∧
    (sReady.run env0 [Op.opClose, Op.opAutoResize]).1.isReady = true ∧
    ((sPre.onCommand "reset" 1).onCommand "reset" 2).handleMessage env0
        { origin := "o",
          data := .obj [("type", .str "parent_command"),
                        ("command", .str "reset"),
                        ("params", JsValue.obj [])] } =
      ((sPre.onCommand "reset" 1).onCommand "reset" 2,
       [Effect.invokeHandler 2 (JsValue.obj [])]) :=
  ⟨c9_ready_monotone_last_handler_wins.2.1 sReady env0 Op.opClose rfl,
   c9_ready_monotone_last_handler_wins.2.2.1 sReady env0
     [Op.opClose, Op.opAutoResize] rfl,
   c9_ready_monotone_last_handler_wins.2.2.2 sPre env0 "reset" 1 2 "o"
     (JsValue.obj [])⟩

/-- C10 (confirmed): the inbound dispatcher reads only the data of the
delivering event, never its origin: two events with identical data but
different origins produce identical resulting state and identical effects. -/
theorem c10_dispatch_ignores_origin (s : ChatKit) (env : Env) (o1 o2 : String)
    (d : JsValue) :
    s.handleMessage env { origin := o1, data := d } =
      s.handleMessage env { origin := o2, data := d } := rfl
